import Mathlib

/-!
Shallow embedding of `src/mcp/process_manager.py` (subprocess lifecycle
manager for the whisper & tts services).

Modelling conventions:
* Python module-level mutable state (the `_services` registry and the set of
  asyncio tasks) becomes an explicit `PMState` threaded through every
  operation; an operation returns its result together with the post-state.
* A `subprocess.Popen` handle is modelled as a `ProcHandle` carrying the pid
  and an `alive` flag (`poll() is None` iff `alive = true`).
* The OS is abstracted by explicit parameters: `SpawnResult` (outcome of
  `subprocess.Popen`), the time the process takes to exit after the stop
  signal (`exitTime`, in seconds), whether `send_signal` raises `OSError`
  (`signalFails`), and the current clock (`now`, seconds as `Nat`;
  `round(x, 1)` on whole seconds is the identity, so it is dropped).
* asyncio tasks live in a global task table `PMState.tasks`; a record keeps
  the id of its current `_reader_task`.  `Task.cancel()` / task completion
  are `TaskStatus` transitions.  `_log_reader` appending one decoded line is
  the step function `logReaderAppend`; lines are modelled post-UTF-8-decode
  as `String`s (the byte-level `errors="replace"` decoding is not modelled).
* Python exceptions become `Except PMError`; mutations performed before an
  exception is raised persist in the returned post-state, as they do on the
  Python globals.
-/

namespace ProcessManager

/-- One entry of `SERVICE_CONFIG`: cwd, uvicorn executable path, app string,
port. Paths are modelled as plain strings. -/
structure ServiceConfig where
  cwd : String
  uvicorn : String
  app : String
  port : Nat
deriving Repr, DecidableEq

/-- `SERVICE_CONFIG`: the static service-definition table of the module. -/
def SERVICE_CONFIG : List (String × ServiceConfig) :=
  [("whisper", { cwd := "whisper", uvicorn := "whisper/venv/Scripts/uvicorn.exe",
                 app := "server:app", port := 8100 }),
   ("tts", { cwd := "tts", uvicorn := "tts/venv/Scripts/uvicorn.exe",
             app := "server:app", port := 8200 })]

/-- `LOG_BUFFER_SIZE = 500`. -/
def LOG_BUFFER_SIZE : Nat := 500

/-- Dictionary lookup `SERVICE_CONFIG[name]` / membership `name in SERVICE_CONFIG`. -/
def lookupConfig (name : String) : Option ServiceConfig :=
  (SERVICE_CONFIG.find? (fun p => p.fst == name)).map (fun p => p.snd)

/-- A `subprocess.Popen` handle: its pid and whether `poll()` still returns
`None` (`alive = true`) or the process has exited. -/
structure ProcHandle where
  pid : Nat
  alive : Bool
deriving Repr, DecidableEq

/-- Status of an asyncio task: still running, finished on its own (EOF), or
cancelled.  `Task.done()` is true for `done` and `cancelled`. -/
inductive TaskStatus where
  | running
  | done
  | cancelled
deriving Repr, DecidableEq, BEq

/-- One asyncio log-reader task: its identity, the pid of the process whose
stdout it drains (`proc = svc.process` is captured when the task starts), and
its status. -/
structure TaskRec where
  id : Nat
  boundPid : Nat
  status : TaskStatus
deriving Repr, DecidableEq

/-- `ManagedService`: tracks a subprocess and its log ring buffer.  The
`_reader_task` field holds the id of the record's current task in the global
task table (`none` when no task has been created yet). -/
structure ManagedService where
  name : String
  process : Option ProcHandle
  logs : List String
  started_at : Option Nat
  reader_task : Option Nat
deriving Repr, DecidableEq

/-- `ManagedService.__init__`. -/
def mkManagedService (name : String) : ManagedService :=
  { name := name, process := none, logs := [], started_at := none,
    reader_task := none }

/-- The module-level mutable state: the `_services` registry plus the table
of all asyncio reader tasks ever created. -/
structure PMState where
  services : List (String × ManagedService)
  tasks : List TaskRec
deriving Repr, DecidableEq

/-- The empty initial state (fresh import of the module). -/
def initState : PMState := { services := [], tasks := [] }

/-- Registry lookup `_services[name]` (as an option). -/
def findService (st : PMState) (name : String) : Option ManagedService :=
  (st.services.find? (fun p => p.fst == name)).map (fun p => p.snd)

/-- Overwrite the registry entry for `name` (the record exists whenever this
is called, since `_get` inserted it). -/
def updateService (st : PMState) (name : String) (svc : ManagedService) : PMState :=
  { st with services := st.services.map (fun p => if p.fst == name then (p.fst, svc) else p) }

/-- The `running` property: a process handle exists and `poll()` is `None`. -/
def runningB (svc : ManagedService) : Bool :=
  match svc.process with
  | some h => h.alive
  | none => false

/-- The `pid` property: `self.process.pid if self.process else None`. -/
def pidOf (svc : ManagedService) : Option Nat :=
  match svc.process with
  | some h => some h.pid
  | none => none

/-- Python truthiness of `self.started_at` (`None` and `0.0` are falsy). -/
def startedAtTruthy : Option Nat → Bool
  | none => false
  | some t => t != 0

/-- The `uptime_seconds` property: `now - started_at` while running, else
`None`. -/
def uptimeSeconds (svc : ManagedService) (now : Nat) : Option Nat :=
  if startedAtTruthy svc.started_at && runningB svc then
    some (now - svc.started_at.getD 0)
  else none

/-- `SERVICE_CONFIG[self.name]["port"]` (only reached for known names; the
default 0 is never hit by the operations below). -/
def portOf (name : String) : Nat :=
  match lookupConfig name with
  | some cfg => cfg.port
  | none => 0

/-- The result dict of the lifecycle operations.  `status_dict()` has no
`"message"` key: that is modelled as `message = none`; `start`/`stop` adding
`"message": ...` is modelled as `message = some ...`. -/
structure StatusSnapshot where
  service : String
  running : Bool
  pid : Option Nat
  port : Nat
  uptime_seconds : Option Nat
  message : Option String
deriving Repr, DecidableEq

/-- `ManagedService.status_dict()`. -/
def status_dict (svc : ManagedService) (now : Nat) : StatusSnapshot :=
  { service := svc.name, running := runningB svc, pid := pidOf svc,
    port := portOf svc.name, uptime_seconds := uptimeSeconds svc now,
    message := none }

/-- The error taxonomy: the `ValueError` raised by `_get` for unknown names
(the spec's `UnknownServiceError`) and the exception `subprocess.Popen`
raises when the executable is missing/unlaunchable (the spec's `SpawnError`). -/
inductive PMError where
  | unknownService (name : String)
  | spawnError (msg : String)
deriving Repr, DecidableEq

/-- `_get(name)`: raise for unknown names, else return the existing record or
insert a fresh one. -/
def _get (st : PMState) (name : String) :
    Except PMError (ManagedService × PMState) :=
  match lookupConfig name with
  | none => .error (.unknownService name)
  | some _ =>
    match findService st name with
    | some svc => .ok (svc, st)
    | none =>
      let svc := mkManagedService name
      .ok (svc, { st with services := st.services ++ [(name, svc)] })

/-- `rstrip("\n")`: strip all trailing newline characters. -/
def rstripNewline (s : String) : String :=
  String.mk ((s.data.reverse.dropWhile (fun c => c == '\n')).reverse)

/-- `deque(maxlen=cap).append`: append on the right, evicting from the left
when the capacity is exceeded. -/
def dequeAppend (cap : Nat) (l : List String) (x : String) : List String :=
  let l2 := l ++ [x]
  if cap < l2.length then l2.drop (l2.length - cap) else l2

/-- One iteration of the `_log_reader` loop at the buffer level:
`svc.logs.append(line.decode(...).rstrip("\n"))`. -/
def logAppendLine (logs : List String) (rawLine : String) : List String :=
  dequeAppend LOG_BUFFER_SIZE logs (rstripNewline rawLine)

/-- One iteration of the `_log_reader` loop at the record level. -/
def logReaderAppend (svc : ManagedService) (rawLine : String) : ManagedService :=
  { svc with logs := logAppendLine svc.logs rawLine }

/-- Outcome of `subprocess.Popen`: either a new live process with a pid, or
the spawn exception (executable missing / unlaunchable). -/
inductive SpawnResult where
  | ok (pid : Nat)
  | err (msg : String)
deriving Repr, DecidableEq

/-- `start(name)`.  `spawn` is the OS outcome of `Popen`, `now` the clock at
the call, `newTaskId` the identity of the asyncio task `loop.create_task`
would produce.  Mutations made before an exception persist in the returned
state (`svc.logs.clear()` runs before `Popen`). -/
def start (st : PMState) (name : String) (spawn : SpawnResult) (now : Nat)
    (newTaskId : Nat) : Except PMError StatusSnapshot × PMState :=
  match _get st name with
  | .error e => (.error e, st)
  | .ok (svc, st1) =>
    if runningB svc then
      (.ok { status_dict svc now with message := some "Already running" }, st1)
    else
      let svc1 := { svc with logs := [] }
      match spawn with
      | .err m => (.error (.spawnError m), updateService st1 name svc1)
      | .ok pid =>
        let svc2 := { svc1 with
          process := some { pid := pid, alive := true },
          started_at := some now,
          reader_task := some newTaskId }
        let st2 := updateService st1 name svc2
        let st3 := { st2 with
          tasks := st2.tasks ++ [{ id := newTaskId, boundPid := pid, status := .running }] }
        (.ok { status_dict svc2 now with message := some "Started" }, st3)

/-- `STOP` escalation timeout: `asyncio.wait_for(..., timeout=10.0)`. -/
def STOP_TIMEOUT : Nat := 10

/-- The externally observable OS actions `stop` performs on the process, in
order. -/
inductive StopAction where
  | sendSignal
  | waitWithTimeout
  | kill
  | waitForExit
deriving Repr, DecidableEq

/-- Mark the task `tid` cancelled if it is still running
(`if svc._reader_task and not svc._reader_task.done(): cancel()`). -/
def cancelTask (tasks : List TaskRec) (tid : Nat) : List TaskRec :=
  tasks.map (fun t =>
    if t.id == tid && t.status == TaskStatus.running then
      { t with status := .cancelled }
    else t)

/-- Cancel the record's reader task, when one exists. -/
def cancelReaderTask (st : PMState) (rt : Option Nat) : PMState :=
  match rt with
  | some tid => { st with tasks := cancelTask st.tasks tid }
  | none => st

/-- `stop(name)`: CTRL_BREAK, bounded 10 s wait, force-kill on timeout, then
cancel the reader task.  `signalFails` abstracts `send_signal` raising
`OSError` (swallowed); `exitTime` is the number of seconds the process takes
to exit after the signal, so the `wait_for` timeout elapses iff
`exitTime > STOP_TIMEOUT`.  The third component is the ordered trace of OS
actions performed on the process. -/
def stop (st : PMState) (name : String) (_signalFails : Bool) (exitTime : Nat)
    (now : Nat) : (Except PMError StatusSnapshot × PMState) × List StopAction :=
  match _get st name with
  | .error e => ((.error e, st), [])
  | .ok (svc, st1) =>
    match svc.process with
    | none => ((.ok { status_dict svc now with message := some "Not running" }, st1), [])
    | some h =>
      if h.alive then
        -- send_signal(CTRL_BREAK_EVENT), OSError swallowed
        let acts1 := [StopAction.sendSignal]
        let acts2 :=
          if exitTime ≤ STOP_TIMEOUT then
            acts1 ++ [.waitWithTimeout]
          else
            acts1 ++ [.waitWithTimeout, .kill, .waitForExit]
        let svc2 := { svc with process := some ({ h with alive := false }) }
        let st2 := updateService st1 name svc2
        let st3 := cancelReaderTask st2 svc2.reader_task
        ((.ok { status_dict svc2 now with message := some "Stopped" }, st3), acts2)
      else
        ((.ok { status_dict svc now with message := some "Not running" }, st1), [])

/-- `restart(name)`: `await stop(name)` then `start(name)`; an exception from
`stop` propagates and `start` is not reached. -/
def restart (st : PMState) (name : String) (signalFails : Bool) (exitTime : Nat)
    (spawn : SpawnResult) (now : Nat) (newTaskId : Nat) :
    Except PMError StatusSnapshot × PMState :=
  match stop st name signalFails exitTime now with
  | ((.error e, st1), _) => (.error e, st1)
  | ((.ok _, st1), _) => start st1 name spawn now newTaskId

/-- `status(name)`. -/
def status (st : PMState) (name : String) (now : Nat) :
    Except PMError StatusSnapshot × PMState :=
  match _get st name with
  | .error e => (.error e, st)
  | .ok (svc, st1) => (.ok (status_dict svc now), st1)

/-- The result dict of `view_logs`. -/
structure LogSnapshot where
  service : String
  lines_requested : Nat
  lines_returned : Nat
  logs : List String
deriving Repr, DecidableEq

/-- `list(svc.logs)[-lines:]` for `lines ≥ 1`: the last `lines` elements. -/
def takeLast {α : Type} (n : Nat) (l : List α) : List α :=
  l.drop (l.length - n)

/-- `view_logs(name, lines)`: clamp to `[1, LOG_BUFFER_SIZE]` and return the
most recent clamped-count lines.  `lines` is a Python `int`, so `Int` here. -/
def view_logs (st : PMState) (name : String) (lines : Int) :
    Except PMError LogSnapshot × PMState :=
  match _get st name with
  | .error e => (.error e, st)
  | .ok (svc, st1) =>
    let clamped : Nat := (max 1 (min lines (LOG_BUFFER_SIZE : Int))).toNat
    let recent := takeLast clamped svc.logs
    (.ok { service := name, lines_requested := clamped,
           lines_returned := recent.length, logs := recent }, st1)

/-- External OS event: the process of `name` exits on its own (crash or
normal exit).  `poll()` now returns an exit code; nothing else changes — in
particular the reader task keeps draining the (buffered) pipe until EOF. -/
def processExited (st : PMState) (name : String) : PMState :=
  match findService st name with
  | some svc =>
    match svc.process with
    | some h => updateService st name { svc with process := some ({ h with alive := false }) }
    | none => st
  | none => st

/-- External event: reader task `tid` observes EOF and finishes quietly. -/
def taskFinished (st : PMState) (tid : Nat) : PMState :=
  { st with tasks := st.tasks.map (fun t =>
      if t.id == tid && t.status == TaskStatus.running then
        { t with status := .done }
      else t) }


/-! ### Concrete fixture states -/

/-- A registry whose whisper record exists but has never run. -/
def stIdle : PMState :=
  { services := [("whisper", mkManagedService "whisper")], tasks := [] }

/-- A registry whose whisper record is running: pid 4242, reader task 7, two
buffered lines, started at t = 100. -/
def stRunning : PMState :=
  { services := [("whisper",
      { name := "whisper", process := some { pid := 4242, alive := true },
        logs := ["line one", "line two"], started_at := some 100,
        reader_task := some 7 })],
    tasks := [{ id := 7, boundPid := 4242, status := .running }] }

/-- State after a first successful `start` of whisper (pid 4242, task 7). -/
def stAfterFirstStart : PMState :=
  (start stIdle "whisper" (SpawnResult.ok 4242) 100 7).2

/-- The invariant claimed for the capture tasks, stated over the task table:
every still-running capture task is the current task of some record and is
bound to that record's current process handle (same pid). -/
def taskBoundOk (st : PMState) (t : TaskRec) : Bool :=
  st.services.any (fun p =>
    p.snd.reader_task == some t.id &&
      match p.snd.process with
      | some h => h.pid == t.boundPid
      | none => false)

/-- The claimed invariant for every task in the table. -/
def captureTasksBound (st : PMState) : Bool :=
  st.tasks.all (fun t => !(t.status == TaskStatus.running) || taskBoundOk st t)

/-- Trace for C8: start whisper (pid 1, task 1); the process exits on its own
while the reader task is still draining the buffered pipe; start again
(pid 2, task 2). -/
def c8Trace : PMState :=
  (start (processExited ((start initState "whisper" (SpawnResult.ok 1) 0 1).2)
    "whisper") "whisper" (SpawnResult.ok 2) 5 2).2

/-! ### Helper lemmas about the registry -/

theorem find?_update_list (name : String) (svc : ManagedService)
    (l : List (String × ManagedService)) (s : ManagedService)
    (h : (l.find? (fun p => p.fst == name)).map (fun p => p.snd) = some s) :
    ((l.map (fun p => if p.fst == name then (p.fst, svc) else p)).find?
      (fun p => p.fst == name)).map (fun p => p.snd) = some svc := by
  induction l with
  | nil => simp at h
  | cons hd tl ih =>
    cases hh : (hd.fst == name) with
    | true =>
      rw [List.map_cons, if_pos hh]
      simp [List.find?, hh]
    | false =>
      rw [List.map_cons, if_neg (by simp [hh])]
      simp only [List.find?, hh] at h ⊢
      exact ih h

theorem findService_updateService {st : PMState} {name : String}
    {svc s : ManagedService} (h : findService st name = some s) :
    findService (updateService st name svc) name = some svc :=
  find?_update_list name svc st.services s h

theorem updateService_tasks (st : PMState) (name : String) (svc : ManagedService) :
    (updateService st name svc).tasks = st.tasks := rfl

theorem cancelReaderTask_services (st : PMState) (rt : Option Nat) :
    (cancelReaderTask st rt).services = st.services := by
  cases rt <;> rfl

theorem findService_cancelReaderTask (st : PMState) (rt : Option Nat)
    (name : String) :
    findService (cancelReaderTask st rt) name = findService st name := by
  cases rt <;> rfl

theorem _get_known {st : PMState} {name : String} {svc : ManagedService}
    (hc : (lookupConfig name).isSome = true)
    (hf : findService st name = some svc) :
    _get st name = .ok (svc, st) := by
  obtain ⟨cfg, hcfg⟩ := Option.isSome_iff_exists.mp hc
  simp [_get, hcfg, hf]

theorem _get_unknown (st : PMState) {name : String}
    (hc : lookupConfig name = none) :
    _get st name = .error (.unknownService name) := by
  simp [_get, hc]

/-! ### Helper lemmas unfolding the operations -/

theorem start_already_running {st : PMState} {name : String}
    {svc : ManagedService} (hc : (lookupConfig name).isSome = true)
    (hf : findService st name = some svc) (hr : runningB svc = true)
    (sp : SpawnResult) (now tid : Nat) :
    start st name sp now tid =
      (.ok { status_dict svc now with message := some "Already running" }, st) := by
  simp [start, _get_known hc hf, hr]

theorem start_spawn_err {st : PMState} {name : String} {svc : ManagedService}
    (hc : (lookupConfig name).isSome = true)
    (hf : findService st name = some svc) (hr : runningB svc = false)
    (m : String) (now tid : Nat) :
    start st name (SpawnResult.err m) now tid =
      (.error (.spawnError m), updateService st name { svc with logs := [] }) := by
  simp [start, _get_known hc hf, hr]

theorem stop_running {st : PMState} {name : String} {svc : ManagedService}
    {h : ProcHandle} (hc : (lookupConfig name).isSome = true)
    (hf : findService st name = some svc) (hp : svc.process = some h)
    (ha : h.alive = true) (sf : Bool) (et now : Nat) :
    stop st name sf et now =
      ((.ok { status_dict { svc with process := some { h with alive := false } }
                now with message := some "Stopped" },
        cancelReaderTask
          (updateService st name
            { svc with process := some { h with alive := false } })
          svc.reader_task),
       if et ≤ STOP_TIMEOUT then [.sendSignal, .waitWithTimeout]
       else [.sendSignal, .waitWithTimeout, .kill, .waitForExit]) := by
  unfold stop
  rw [_get_known hc hf]
  simp only [hp]
  rw [if_pos ha]
  split <;> rfl

theorem status_known {st : PMState} {name : String} {svc : ManagedService}
    (hc : (lookupConfig name).isSome = true)
    (hf : findService st name = some svc) (now : Nat) :
    status st name now = (.ok (status_dict svc now), st) := by
  simp [status, _get_known hc hf]

/-! ### Helper lemmas about the ring buffer -/

theorem takeLast_eq_self {α : Type} {n : Nat} {l : List α}
    (h : l.length ≤ n) : takeLast n l = l := by
  unfold takeLast
  have h0 : l.length - n = 0 := by omega
  rw [h0, List.drop_zero]

theorem takeLast_length {α : Type} (n : Nat) (l : List α) :
    (takeLast n l).length = min n l.length := by
  unfold takeLast
  rw [List.length_drop]
  omega

theorem dequeAppend_eq_takeLast (cap : Nat) (l : List String) (x : String) :
    dequeAppend cap l x = takeLast cap (l ++ [x]) := by
  simp only [dequeAppend, takeLast]
  by_cases hcb : cap < (l ++ [x]).length
  · rw [if_pos hcb]
  · rw [if_neg hcb]
    have h0 : (l ++ [x]).length - cap = 0 := by omega
    rw [h0, List.drop_zero]

theorem takeLast_takeLast_append {α : Type} (cap : Nat) (l r : List α) :
    takeLast cap (takeLast cap l ++ r) = takeLast cap (l ++ r) := by
  simp only [takeLast]
  rw [← List.drop_append_of_le_length (show l.length - cap ≤ l.length by omega)]
  rw [List.drop_drop]
  congr 1
  simp only [List.length_append, List.length_drop]
  omega

theorem foldl_logAppendLine (ls : List String) (init : List String)
    (h : init.length ≤ LOG_BUFFER_SIZE) :
    ls.foldl logAppendLine init =
      takeLast LOG_BUFFER_SIZE (init ++ ls.map rstripNewline) := by
  induction ls generalizing init with
  | nil => simp [takeLast_eq_self h]
  | cons a ls ih =>
    rw [List.foldl_cons]
    have hstep : logAppendLine init a =
        takeLast LOG_BUFFER_SIZE (init ++ [rstripNewline a]) := by
      unfold logAppendLine
      exact dequeAppend_eq_takeLast _ _ _
    rw [hstep, ih _ (by rw [takeLast_length]; omega)]
    rw [takeLast_takeLast_append]
    simp

theorem foldl_logReaderAppend (ls : List String) (svc : ManagedService) :
    (ls.foldl logReaderAppend svc).logs = ls.foldl logAppendLine svc.logs := by
  induction ls generalizing svc with
  | nil => rfl
  | cons a ls ih => rw [List.foldl_cons, List.foldl_cons, ih]; rfl


/-! ### Claims -/

/-- C1: for every known service whose process is running, `stop` performs the
escalation in strict order: exactly one cooperative termination signal is
sent (whether or not the send fails — failures are swallowed), then a wait
bounded by the 10-second timeout; the forced kill followed by an unbounded
wait for exit happens iff the timeout elapsed before exit
(`STOP_TIMEOUT < exitTime`), never when the process exits within the window;
and the call returns a snapshot annotated "Stopped". -/
theorem C1_stop_escalation (st : PMState) (name : String) (svc : ManagedService)
    (h : ProcHandle) (sf : Bool) (et now : Nat)
    (hc : (lookupConfig name).isSome = true)
    (hf : findService st name = some svc) (hp : svc.process = some h)
    (ha : h.alive = true) :
    ((stop st name sf et now).2.count StopAction.sendSignal = 1) ∧
    (et ≤ STOP_TIMEOUT →
      (stop st name sf et now).2 = [.sendSignal, .waitWithTimeout]) ∧
    (STOP_TIMEOUT < et →
      (stop st name sf et now).2 =
        [.sendSignal, .waitWithTimeout, .kill, .waitForExit]) ∧
    (StopAction.kill ∈ (stop st name sf et now).2 ↔ STOP_TIMEOUT < et) ∧
    ((stop st name sf et now).1.1 =
      .ok { status_dict { svc with process := some { h with alive := false } }
              now with message := some "Stopped" }) := by
  rw [stop_running hc hf hp ha]
  by_cases he : et ≤ STOP_TIMEOUT
  · rw [if_pos he]
    exact ⟨rfl, fun _ => rfl, fun hlt => absurd hlt (Nat.not_lt.mpr he),
      Iff.intro (fun hm => absurd hm (by simp))
        (fun hlt => absurd hlt (Nat.not_lt.mpr he)), rfl⟩
  · rw [if_neg he]
    exact ⟨rfl, fun hle => absurd hle he, fun _ => rfl,
      Iff.intro (fun _ => Nat.not_le.mp he) (fun _ => by simp), rfl⟩

/-- C1 witness: stopping the running whisper fixture with a 3-second graceful
exit yields signal-then-wait only; with a 99-second exit it escalates to
kill-then-wait. -/
theorem C1_witness :
    ((stop stRunning "whisper" false 3 120).2 =
      [.sendSignal, .waitWithTimeout]) ∧
    ((stop stRunning "whisper" true 99 120).2 =
      [.sendSignal, .waitWithTimeout, .kill, .waitForExit]) :=
  ⟨(C1_stop_escalation stRunning "whisper"
      { name := "whisper", process := some { pid := 4242, alive := true },
        logs := ["line one", "line two"], started_at := some 100,
        reader_task := some 7 }
      { pid := 4242, alive := true } false 3 120
      (by decide) (by decide) rfl rfl).2.1 (by decide),
   (C1_stop_escalation stRunning "whisper"
      { name := "whisper", process := some { pid := 4242, alive := true },
        logs := ["line one", "line two"], started_at := some 100,
        reader_task := some 7 }
      { pid := 4242, alive := true } true 99 120
      (by decide) (by decide) rfl rfl).2.2.1 (by decide)⟩

/-- C2: the log buffer holds at most 500 lines; a sequence of log-capture
appends keeps exactly the most recent 500 lines in production order (strict
FIFO eviction of the oldest), and after writing 501 lines into a cleared
buffer exactly the last 500 remain, in order. -/
theorem C2_ring_buffer (svc : ManagedService) (ls : List String)
    (hlen : svc.logs.length ≤ LOG_BUFFER_SIZE) :
    ((ls.foldl logReaderAppend svc).logs.length ≤ LOG_BUFFER_SIZE) ∧
    ((ls.foldl logReaderAppend svc).logs =
      takeLast LOG_BUFFER_SIZE (svc.logs ++ ls.map rstripNewline)) ∧
    (svc.logs = [] → ls.length = 501 →
      (ls.foldl logReaderAppend svc).logs = (ls.map rstripNewline).drop 1) := by
  have hmain : (ls.foldl logReaderAppend svc).logs =
      takeLast LOG_BUFFER_SIZE (svc.logs ++ ls.map rstripNewline) := by
    rw [foldl_logReaderAppend]
    exact foldl_logAppendLine ls svc.logs hlen
  refine ⟨?_, hmain, ?_⟩
  · rw [hmain, takeLast_length]
    omega
  · intro h0 h501
    rw [hmain, h0, List.nil_append]
    unfold takeLast
    rw [List.length_map, h501]
    rfl

/-- C2 witness: two short appends to a fresh record land in the buffer in
order, with the trailing newline stripped. -/
theorem C2_witness :
    (mkManagedService "whisper").logs.length ≤ LOG_BUFFER_SIZE ∧
    ((["a", "b\n"].foldl logReaderAppend (mkManagedService "whisper")).logs =
      takeLast LOG_BUFFER_SIZE
        ((mkManagedService "whisper").logs ++ ["a", "b\n"].map rstripNewline)) :=
  ⟨by decide,
   (C2_ring_buffer (mkManagedService "whisper") ["a", "b\n"] (by decide)).2.1⟩

/-- C3: for every name outside the static service table, each of the five
operations fails with the unknown-service error and leaves the whole state —
in particular the registry — unchanged. -/
theorem C3_unknown_service (st : PMState) (name : String) (sf : Bool)
    (et : Nat) (sp : SpawnResult) (now tid : Nat) (n : Int)
    (hc : lookupConfig name = none) :
    start st name sp now tid = (.error (.unknownService name), st) ∧
    stop st name sf et now = ((.error (.unknownService name), st), []) ∧
    restart st name sf et sp now tid = (.error (.unknownService name), st) ∧
    status st name now = (.error (.unknownService name), st) ∧
    view_logs st name n = (.error (.unknownService name), st) := by
  have hg := _get_unknown st hc
  refine ⟨?_, ?_, ?_, ?_, ?_⟩
  · simp [start, hg]
  · simp [stop, hg]
  · simp [restart, stop, hg]
  · simp [status, hg]
  · simp [view_logs, hg]

/-- C3 witness: the unknown name "ghost" makes every operation fail on the
idle fixture without touching the state. -/
theorem C3_witness :
    start stIdle "ghost" (SpawnResult.ok 1) 0 1 =
      (.error (.unknownService "ghost"), stIdle) ∧
    status stIdle "ghost" 0 = (.error (.unknownService "ghost"), stIdle) :=
  ⟨(C3_unknown_service stIdle "ghost" false 0 (SpawnResult.ok 1) 0 1 0
      (by decide)).1,
   (C3_unknown_service stIdle "ghost" false 0 (SpawnResult.ok 1) 0 1 0
      (by decide)).2.2.2.1⟩

/-- C4 counterexample: the claim says stop clears the process handle to the
not-running `None`; in the code `stop` never assigns `svc.process = None`,
so after stopping the running whisper fixture the record still holds a
handle (the exited pid 4242). -/
theorem C4_counterexample :
    (findService ((stop stRunning "whisper" false 3 120).1.2) "whisper").map
        ManagedService.process ≠ some none ∧
    (findService ((stop stRunning "whisper" false 3 120).1.2) "whisper").map
        ManagedService.process =
      some (some { pid := 4242, alive := false }) :=
  ⟨by decide, by decide⟩

/-- C4 amended: when `stop` returns for a running service the record's
process handle is retained, not cleared: it still holds the same pid, now
marked exited, and the record reports not running (because the OS reports
the process exited, not because the handle is `None`). -/
theorem C4_process_handle_retained (st : PMState) (name : String)
    (svc : ManagedService) (h : ProcHandle) (sf : Bool) (et now : Nat)
    (hc : (lookupConfig name).isSome = true)
    (hf : findService st name = some svc) (hp : svc.process = some h)
    (ha : h.alive = true) :
    findService ((stop st name sf et now).1.2) name =
      some { svc with process := some { h with alive := false } } ∧
    ({ svc with process := some { h with alive := false } } :
        ManagedService).process ≠ none ∧
    runningB { svc with process := some { h with alive := false } } = false := by
  rw [stop_running hc hf hp ha]
  refine ⟨?_, by simp, rfl⟩
  show findService (cancelReaderTask
    (updateService st name { svc with process := some { h with alive := false } })
    svc.reader_task) name = _
  rw [findService_cancelReaderTask]
  exact findService_updateService hf

/-- C4 amended witness: on the running whisper fixture. -/
theorem C4_witness :
    findService ((stop stRunning "whisper" false 3 120).1.2) "whisper" =
      some { name := "whisper", process := some { pid := 4242, alive := false },
             logs := ["line one", "line two"], started_at := some 100,
             reader_task := some 7 } :=
  (C4_process_handle_retained stRunning "whisper"
    { name := "whisper", process := some { pid := 4242, alive := true },
      logs := ["line one", "line two"], started_at := some 100,
      reader_task := some 7 }
    { pid := 4242, alive := true } false 3 120
    (by decide) (by decide) rfl rfl).1


/-- C5: `start` on an already-running service is a pure no-op: it returns the
current status annotated "Already running" with the pid of the (unchanged)
current process and leaves the entire state — record, registry and task
table — exactly as it was; no process is spawned and no task created. -/
theorem C5_start_idempotent (st : PMState) (name : String) (svc : ManagedService)
    (sp : SpawnResult) (now tid : Nat)
    (hc : (lookupConfig name).isSome = true)
    (hf : findService st name = some svc) (hr : runningB svc = true) :
    start st name sp now tid =
      (.ok { status_dict svc now with message := some "Already running" }, st) ∧
    (start st name sp now tid).2 = st ∧
    (start st name sp now tid).1.map StatusSnapshot.pid = .ok (pidOf svc) := by
  have he := start_already_running hc hf hr sp now tid
  exact ⟨he, by rw [he], by rw [he]; rfl⟩

/-- C5 witness: a second `start` right after a successful first one returns
"Already running" with the first call's pid 4242 and an unchanged state. -/
theorem C5_witness :
    start stAfterFirstStart "whisper" (SpawnResult.ok 9999) 200 8 =
      (.ok { status_dict
          { name := "whisper", process := some { pid := 4242, alive := true },
            logs := [], started_at := some 100, reader_task := some 7 } 200
          with message := some "Already running" }, stAfterFirstStart) :=
  (C5_start_idempotent stAfterFirstStart "whisper"
    { name := "whisper", process := some { pid := 4242, alive := true },
      logs := [], started_at := some 100, reader_task := some 7 }
    (SpawnResult.ok 9999) 200 8 (by decide) (by decide) rfl).1

/-- C6: `view_logs` clamps the requested count to `[1, 500]` (10000 clamps to
500, 0 clamps to 1), reports the clamped value as `lines_requested`, returns
the most recent `min(clamped, available)` lines — a suffix of the buffer, so
in chronological order — and reports their number as `lines_returned`. -/
theorem C6_view_logs_clamp (st : PMState) (name : String) (svc : ManagedService)
    (n : Int) (hc : (lookupConfig name).isSome = true)
    (hf : findService st name = some svc) :
    view_logs st name n =
      (.ok { service := name,
             lines_requested := (max 1 (min n (LOG_BUFFER_SIZE : Int))).toNat,
             lines_returned :=
               min (max 1 (min n (LOG_BUFFER_SIZE : Int))).toNat svc.logs.length,
             logs := takeLast (max 1 (min n (LOG_BUFFER_SIZE : Int))).toNat
               svc.logs },
       st) ∧
    1 ≤ (max 1 (min n (LOG_BUFFER_SIZE : Int))).toNat ∧
    (max 1 (min n (LOG_BUFFER_SIZE : Int))).toNat ≤ LOG_BUFFER_SIZE ∧
    (n = 10000 → (max 1 (min n (LOG_BUFFER_SIZE : Int))).toNat = 500) ∧
    (n = 0 → (max 1 (min n (LOG_BUFFER_SIZE : Int))).toNat = 1) ∧
    ((takeLast (max 1 (min n (LOG_BUFFER_SIZE : Int))).toNat svc.logs).length ≤
      LOG_BUFFER_SIZE) ∧
    takeLast (max 1 (min n (LOG_BUFFER_SIZE : Int))).toNat svc.logs <:+
      svc.logs := by
  have hLi : (LOG_BUFFER_SIZE : Int) = 500 := rfl
  have hLn : LOG_BUFFER_SIZE = 500 := rfl
  refine ⟨?_, ?_, ?_, ?_, ?_, ?_, ?_⟩
  · simp only [view_logs, _get_known hc hf]
    rw [takeLast_length]
  · rw [hLi]; omega
  · rw [hLi, hLn]; omega
  · intro hn; subst hn; decide
  · intro hn; subst hn; decide
  · rw [takeLast_length, hLi, hLn]; omega
  · unfold takeLast
    exact List.drop_suffix _ _

/-- C6 witness: on the running whisper fixture (2 buffered lines),
`view_logs` with 10000 clamps to 500 and returns both lines; with 0 it
clamps to 1. -/
theorem C6_witness :
    view_logs stRunning "whisper" 10000 =
      (.ok { service := "whisper", lines_requested := 500,
             lines_returned := 2, logs := ["line one", "line two"] },
       stRunning) ∧
    ((max 1 (min (0 : Int) (LOG_BUFFER_SIZE : Int))).toNat = 1) := by
  constructor
  · have h := (C6_view_logs_clamp stRunning "whisper"
      { name := "whisper", process := some { pid := 4242, alive := true },
        logs := ["line one", "line two"], started_at := some 100,
        reader_task := some 7 } 10000 (by decide) (by decide)).1
    rw [h]
    rfl
  · exact (C6_view_logs_clamp stRunning "whisper"
      { name := "whisper", process := some { pid := 4242, alive := true },
        logs := ["line one", "line two"], started_at := some 100,
        reader_task := some 7 } 0 (by decide) (by decide)).2.2.2.2.1 rfl

/-- Every `.ok` result of `start` carries the message "Already running" or
"Started". -/
theorem start_ok_message (st : PMState) (name : String) (sp : SpawnResult)
    (now tid : Nat) (snap : StatusSnapshot)
    (h : (start st name sp now tid).1 = .ok snap) :
    snap.message = some "Already running" ∨ snap.message = some "Started" := by
  unfold start at h
  split at h
  · simp at h
  · split at h
    · simp at h
      subst h
      left
      rfl
    · split at h
      · simp at h
      · simp at h
        subst h
        right
        rfl

/-- Every `.ok` result of `stop` carries the message "Not running" or
"Stopped". -/
theorem stop_ok_message (st : PMState) (name : String) (sf : Bool)
    (et now : Nat) (snap : StatusSnapshot)
    (h : (stop st name sf et now).1.1 = .ok snap) :
    snap.message = some "Not running" ∨ snap.message = some "Stopped" := by
  unfold stop at h
  split at h
  · simp at h
  · split at h
    · simp at h
      subst h
      left
      rfl
    · split at h
      · simp at h
        subst h
        right
        rfl
      · simp at h
        subst h
        left
        rfl

/-- Every `.ok` result of `restart` carries a `start`-side message. -/
theorem restart_ok_message (st : PMState) (name : String) (sf : Bool)
    (et : Nat) (sp : SpawnResult) (now tid : Nat) (snap : StatusSnapshot)
    (h : (restart st name sf et sp now tid).1 = .ok snap) :
    snap.message = some "Already running" ∨ snap.message = some "Started" := by
  unfold restart at h
  split at h
  · simp at h
  · exact start_ok_message _ _ _ _ _ _ h

/-- `status` results never carry a message. -/
theorem status_ok_message (st : PMState) (name : String) (now : Nat)
    (snap : StatusSnapshot)
    (h : (status st name now).1 = .ok snap) : snap.message = none := by
  unfold status at h
  split at h
  · simp at h
  · simp at h
    subst h
    rfl

/-- C7 counterexample: the claim says every one of start/stop/restart/status
returns a snapshot whose message is one of the four strings, in particular
`status`.  In the code `status` returns `status_dict()` without any
`"message"` key: on the running whisper fixture the snapshot's message slot
is empty (`none`), which is none of the four. -/
theorem C7_counterexample :
    (status stRunning "whisper" 120).1 =
      .ok { service := "whisper", running := true, pid := some 4242,
            port := 8100, uptime_seconds := some 20, message := none } ∧
    ((none : Option String) ≠ some "Already running" ∧
     (none : Option String) ≠ some "Started" ∧
     (none : Option String) ≠ some "Not running" ∧
     (none : Option String) ≠ some "Stopped") :=
  ⟨by rfl, by decide⟩

/-- C7 amended: `start`, `stop` and `restart` return a StatusSnapshot whose
message is among "Already running", "Started", "Not running", "Stopped"
(start/restart produce the first two, stop the last two); `status` returns
the snapshot fields service/running/pid/port/uptime_seconds with no message
annotation. -/
theorem C7_snapshot_messages (st : PMState) (name : String) (sp : SpawnResult)
    (sf : Bool) (et now tid : Nat) (snap : StatusSnapshot) :
    ((start st name sp now tid).1 = .ok snap →
      snap.message = some "Already running" ∨ snap.message = some "Started") ∧
    ((stop st name sf et now).1.1 = .ok snap →
      snap.message = some "Not running" ∨ snap.message = some "Stopped") ∧
    ((restart st name sf et sp now tid).1 = .ok snap →
      snap.message = some "Already running" ∨ snap.message = some "Started") ∧
    ((status st name now).1 = .ok snap → snap.message = none) :=
  ⟨start_ok_message st name sp now tid snap,
   stop_ok_message st name sf et now snap,
   restart_ok_message st name sf et sp now tid snap,
   status_ok_message st name now snap⟩

/-- C7 amended witness: concrete messages on the running whisper fixture. -/
theorem C7_witness :
    ({ status_dict
        { name := "whisper", process := some { pid := 4242, alive := true },
          logs := ["line one", "line two"], started_at := some 100,
          reader_task := some 7 } 120
       with message := some "Already running" } : StatusSnapshot).message =
        some "Already running" ∨
    ({ status_dict
        { name := "whisper", process := some { pid := 4242, alive := true },
          logs := ["line one", "line two"], started_at := some 100,
          reader_task := some 7 } 120
       with message := some "Already running" } : StatusSnapshot).message =
        some "Started" :=
  (C7_snapshot_messages stRunning "whisper" (SpawnResult.ok 1) false 3 120 9
    { status_dict
        { name := "whisper", process := some { pid := 4242, alive := true },
          logs := ["line one", "line two"], started_at := some 100,
          reader_task := some 7 } 120
      with message := some "Already running" }).1 (by rfl)


/-- `_get` never changes the task table of the returned state. -/
theorem _get_tasks {st : PMState} {name : String} {svc : ManagedService}
    {st1 : PMState} (h : _get st name = .ok (svc, st1)) :
    st1.tasks = st.tasks := by
  unfold _get at h
  split at h
  · simp at h
  · split at h
    · simp only [Except.ok.injEq, Prod.mk.injEq] at h
      rw [← h.2]
    · simp only [Except.ok.injEq, Prod.mk.injEq] at h
      rw [← h.2]

/-- `start` never removes or modifies a pre-existing task record: it at most
appends a new one (in particular it cancels nothing). -/
theorem start_tasks_mono (st : PMState) (name : String) (sp : SpawnResult)
    (now tid : Nat) (t : TaskRec) (ht : t ∈ st.tasks) :
    t ∈ (start st name sp now tid).2.tasks := by
  unfold start
  split
  · exact ht
  · next svc st1 heq =>
    have htasks : st1.tasks = st.tasks := _get_tasks heq
    by_cases hr : runningB svc = true
    · rw [if_pos hr]
      show t ∈ st1.tasks
      rw [htasks]
      exact ht
    · rw [if_neg hr]
      cases sp with
      | err m =>
        show t ∈ (updateService st1 name { svc with logs := [] }).tasks
        rw [updateService_tasks, htasks]
        exact ht
      | ok pid =>
        show t ∈ (updateService st1 name
          { svc with
            logs := [],
            process := some { pid := pid, alive := true },
            started_at := some now,
            reader_task := some tid }).tasks ++
          [{ id := tid, boundPid := pid, status := .running }]
        refine List.mem_append_left _ ?_
        rw [updateService_tasks, htasks]
        exact ht

/-- C8 counterexample: the claim says a capture task, if present, is always
bound to the record's current process handle, and that replacing the handle
cancels the prior task before a new one is created.  On the trace
start → process exits on its own → start, the code creates task 2 for pid 2
while task 1 is still running and bound to the gone pid 1: no cancellation
happened. -/
theorem C8_counterexample :
    captureTasksBound c8Trace = false ∧
    ({ id := 1, boundPid := 1, status := .running } : TaskRec) ∈ c8Trace.tasks ∧
    (findService c8Trace "whisper").map ManagedService.reader_task =
      some (some 2) :=
  ⟨by decide, by decide, by decide⟩

/-- C8 amended: `stop` cancels the record's still-running reader task (the
task table becomes `cancelTask` of the old one); but `start` never cancels a
prior capture task — every pre-existing task record survives `start`
unchanged, so a task orphaned by a self-exited process stays running when a
new task is created. -/
theorem C8_capture_task_cancellation (st : PMState) (name : String)
    (svc : ManagedService) (h : ProcHandle) (tid : Nat) (sf : Bool)
    (et now : Nat) (sp : SpawnResult) (now2 ntid : Nat)
    (hc : (lookupConfig name).isSome = true)
    (hf : findService st name = some svc) (hp : svc.process = some h)
    (ha : h.alive = true) (ht : svc.reader_task = some tid) :
    ((stop st name sf et now).1.2).tasks = cancelTask st.tasks tid ∧
    (∀ t ∈ st.tasks, t ∈ (start st name sp now2 ntid).2.tasks) := by
  constructor
  · rw [stop_running hc hf hp ha]
    show (cancelReaderTask
      (updateService st name { svc with process := some { h with alive := false } })
      svc.reader_task).tasks = _
    rw [ht]
    show cancelTask (updateService st name
      { svc with process := some { h with alive := false } }).tasks tid = _
    rw [updateService_tasks]
  · intro t htm
    exact start_tasks_mono st name sp now2 ntid t htm

/-- C8 amended witness: on the running whisper fixture, stop cancels task 7;
and task 7 survives a (hypothetical) start call untouched. -/
theorem C8_witness :
    ((stop stRunning "whisper" false 3 120).1.2).tasks =
      cancelTask stRunning.tasks 7 ∧
    ({ id := 7, boundPid := 4242, status := .running } : TaskRec) ∈
      (start stRunning "whisper" (SpawnResult.ok 1) 150 9).2.tasks :=
  ⟨(C8_capture_task_cancellation stRunning "whisper"
      { name := "whisper", process := some { pid := 4242, alive := true },
        logs := ["line one", "line two"], started_at := some 100,
        reader_task := some 7 }
      { pid := 4242, alive := true } 7 false 3 120 (SpawnResult.ok 1) 150 9
      (by decide) (by decide) rfl rfl rfl).1,
   (C8_capture_task_cancellation stRunning "whisper"
      { name := "whisper", process := some { pid := 4242, alive := true },
        logs := ["line one", "line two"], started_at := some 100,
        reader_task := some 7 }
      { pid := 4242, alive := true } 7 false 3 120 (SpawnResult.ok 1) 150 9
      (by decide) (by decide) rfl rfl rfl).2
     { id := 7, boundPid := 4242, status := .running } (by decide)⟩

/-- C9: when the spawn fails, the exception is surfaced, the record keeps its
old (absent or dead) process handle, its reader-task reference is untouched,
no task is created, and the service still reports not running.  (The log
buffer was already cleared before the spawn attempt, as in the code.) -/
theorem C9_spawn_failure (st : PMState) (name : String) (svc : ManagedService)
    (m : String) (now tid : Nat)
    (hc : (lookupConfig name).isSome = true)
    (hf : findService st name = some svc) (hr : runningB svc = false) :
    start st name (SpawnResult.err m) now tid =
      (.error (.spawnError m), updateService st name { svc with logs := [] }) ∧
    findService ((start st name (SpawnResult.err m) now tid).2) name =
      some { svc with logs := [] } ∧
    ((start st name (SpawnResult.err m) now tid).2).tasks = st.tasks ∧
    ({ svc with logs := [] } : ManagedService).process = svc.process ∧
    ({ svc with logs := [] } : ManagedService).reader_task = svc.reader_task ∧
    (status ((start st name (SpawnResult.err m) now tid).2) name now).1 =
      .ok (status_dict { svc with logs := [] } now) ∧
    (status_dict { svc with logs := [] } now).running = false := by
  have he := start_spawn_err hc hf hr m now tid
  have hf2 : findService ((start st name (SpawnResult.err m) now tid).2) name =
      some { svc with logs := [] } := by
    rw [he]
    exact findService_updateService hf
  refine ⟨he, hf2, ?_, rfl, rfl, ?_, ?_⟩
  · rw [he]
    exact updateService_tasks st name { svc with logs := [] }
  · rw [(status_known hc hf2 now : _)]
  · exact hr

/-- C9 witness: a failed spawn on the idle whisper fixture. -/
theorem C9_witness :
    start stIdle "whisper" (SpawnResult.err "uvicorn.exe not found") 0 1 =
      (.error (.spawnError "uvicorn.exe not found"),
       updateService stIdle "whisper"
         { mkManagedService "whisper" with logs := [] }) ∧
    (status_dict { mkManagedService "whisper" with logs := [] } 0).running =
      false :=
  ⟨(C9_spawn_failure stIdle "whisper" (mkManagedService "whisper")
      "uvicorn.exe not found" 0 1 (by decide) (by decide) rfl).1,
   (C9_spawn_failure stIdle "whisper" (mkManagedService "whisper")
      "uvicorn.exe not found" 0 1 (by decide) (by decide) rfl).2.2.2.2.2.2⟩

/-- C10: the query operations `status` and `view_logs` mutate nothing when
the record already exists: the returned state is exactly the input state, so
every field of every record — process handle, log buffer, started_at,
reader task — and the task table are unchanged. -/
theorem C10_queries_pure (st : PMState) (name : String) (svc : ManagedService)
    (now : Nat) (n : Int) (hc : (lookupConfig name).isSome = true)
    (hf : findService st name = some svc) :
    (status st name now).2 = st ∧ (view_logs st name n).2 = st := by
  have hg := _get_known hc hf
  constructor
  · simp [status, hg]
  · simp [view_logs, hg]

/-- C10 witness: on the running whisper fixture. -/
theorem C10_witness :
    (status stRunning "whisper" 120).2 = stRunning ∧
    (view_logs stRunning "whisper" 50).2 = stRunning :=
  C10_queries_pure stRunning "whisper"
    { name := "whisper", process := some { pid := 4242, alive := true },
      logs := ["line one", "line two"], started_at := some 100,
      reader_task := some 7 } 120 50 (by decide) (by decide)

end ProcessManager
